import Mathlib

/-!
Shallow embedding of `src/setup.py` from the proxtop repository.

The module's execution is: open and read `README.rst` (which may fail with
an IO error, terminating the module), then call `distutils.core.setup`
with a fixed set of keyword arguments, one of which (`long_description`)
is the README content just read.

We model a run of the module as a pure function of the single input it
consumes: the outcome of reading `README.rst`, represented as
`Option String` (`none` = the open/read raised, `some s` = the file's
content was `s`).  The run's observable result is the argument record the
module passes to `setup`, or `none` when an exception aborted the module
before `setup` was reached.
-/

namespace Proxtop

/-- One entry of distutils' `data_files` list: a target directory paired
with the list of files installed into it. -/
structure DataFileEntry where
  dir : String
  files : List String
deriving DecidableEq, Repr

/-- The keyword arguments that `src/setup.py` passes to
`distutils.core.setup`, in the source's order. -/
structure SetupArgs where
  name : String
  version : String
  scripts : List String
  data_files : List DataFileEntry
  description : String
  long_description : String
  author : String
  author_email : String
  url : String
  license : String
  platforms : List String
  classifiers : List String
  install_requires : List String
deriving DecidableEq, Repr

/-- The argument record built by `src/setup.py` (lines 8-35), as a
function of the `README.rst` content bound to `long_description` on
lines 4-5.  Every other field is a literal from the source.  The
parenthesised adjacent string literals of the license classifier
(lines 23-24) concatenate, in Python, to the single string written
here. -/
def setupArgs (readme : String) : SetupArgs :=
  { name := "proxtop"
    version := "0.3.2"
    scripts := ["proxtop"]
    data_files := [⟨"share/doc/proxtop", ["LICENSE.txt", "README.rst"]⟩]
    description := "Proxmox resource monitor"
    long_description := readme
    author := "Walter Doekes, OSSO B.V."
    author_email := "wjdoekes+proxtop@osso.nl"
    url := "https://github.com/ossobv/proxtop"
    license := "GPLv3+"
    platforms := ["linux"]
    classifiers :=
      [ "Development Status :: 4 - Beta"
      , "Intended Audience :: System Administrators"
      , "License :: OSI Approved :: GNU General Public License v3 or later (GPLv3+)"
      , "Operating System :: POSIX :: Linux"
      , "Programming Language :: Python :: 2.7"
      , "Programming Language :: Python :: 3"
      , "Topic :: System :: Clustering"
      , "Topic :: System :: Monitoring" ]
    install_requires := ["proxmoxer>=0.1.7", "requests>=2.2.0"] }

/-- Executing the module `src/setup.py`.  The input is the outcome of the
`open('README.rst')` / `file.read()` statement on lines 4-5 (`none` when
that statement raises).  The result is the record of arguments handed to
`setup`, or `none` when the module aborted before calling `setup`.  The
module has no other statements, so a successful read always reaches the
`setup` call. -/
def runSetupPy (readmeRead : Option String) : Option SetupArgs :=
  readmeRead.map setupArgs

/-- Executing `src/setup.py` in an ambient environment (modelled as a
list of environment variable bindings).  The source never consults the
environment, the command line, or any state other than the README read,
so the run ignores `env`. -/
def runSetupPyInEnv (_env : List (String × String))
    (readmeRead : Option String) : Option SetupArgs :=
  runSetupPy readmeRead

end Proxtop

namespace Proxtop

/-- C1, counterexample: the claim that no statement of `src/setup.py` can
raise when the module is executed is false: when reading `README.rst`
fails (input `none`), the module raises and `setup` is never invoked. -/
theorem C1_counterexample : runSetupPy none = none := rfl

/-- C1, amended: apart from the read of `README.rst` on lines 4-5 (whose
failure aborts the module), execution is purely declarative: whenever the
read succeeds, the module reaches the `setup` call and completes with the
fixed argument record. -/
theorem C1_amended_read_is_only_failure_path (r : Option String) :
    (runSetupPy r).isSome ↔ r.isSome := by
  cases r <;> simp [runSetupPy]

/-- C1, witness for the amended theorem at the concrete inputs `none`
and `some "proxtop docs"`. -/
theorem C1_amended_witness :
    ((runSetupPy none).isSome ↔ (none : Option String).isSome)
    ∧ ((runSetupPy (some "proxtop docs")).isSome
        ↔ (some "proxtop docs").isSome) :=
  ⟨C1_amended_read_is_only_failure_path none,
   C1_amended_read_is_only_failure_path (some "proxtop docs")⟩

/-- C2: for any README content, the `setup()` call declares exactly the
two runtime dependency constraints, the strings `proxmoxer>=0.1.7` and
`requests>=2.2.0`, and nothing else, in `install_requires`. -/
theorem C2_install_requires_exact (readme : String) :
    (setupArgs readme).install_requires
      = ["proxmoxer>=0.1.7", "requests>=2.2.0"] := rfl

/-- C2, witness at a concrete README content. -/
theorem C2_witness :
    (setupArgs "doc").install_requires
      = ["proxmoxer>=0.1.7", "requests>=2.2.0"] :=
  C2_install_requires_exact "doc"

/-- C3: for any README content, the `setup()` call declares exactly one
executable script, named `proxtop`, which equals the declared
distribution name. -/
theorem C3_single_script_matches_name (readme : String) :
    (setupArgs readme).scripts = ["proxtop"]
    ∧ (setupArgs readme).scripts = [(setupArgs readme).name] :=
  ⟨rfl, rfl⟩

/-- C3, witness at a concrete README content. -/
theorem C3_witness :
    (setupArgs "doc").scripts = ["proxtop"]
    ∧ (setupArgs "doc").scripts = [(setupArgs "doc").name] :=
  C3_single_script_matches_name "doc"

/-- C4: for any README content, `data_files` declares exactly the two
files `LICENSE.txt` and `README.rst`, both under the single shared
documentation directory `share/doc/proxtop`. -/
theorem C4_data_files_exact (readme : String) :
    (setupArgs readme).data_files
      = [⟨"share/doc/proxtop", ["LICENSE.txt", "README.rst"]⟩] := rfl

/-- C4, witness at a concrete README content. -/
theorem C4_witness :
    (setupArgs "doc").data_files
      = [⟨"share/doc/proxtop", ["LICENSE.txt", "README.rst"]⟩] :=
  C4_data_files_exact "doc"

/-- C5: for any README content, `platforms` is exactly `["linux"]` and
the classifier list declares compatibility with both Python 2.7 and
Python 3. -/
theorem C5_platforms_and_python_versions (readme : String) :
    (setupArgs readme).platforms = ["linux"]
    ∧ "Programming Language :: Python :: 2.7" ∈ (setupArgs readme).classifiers
    ∧ "Programming Language :: Python :: 3" ∈ (setupArgs readme).classifiers := by
  refine ⟨rfl, ?_, ?_⟩ <;> simp [setupArgs]

/-- C5, witness at a concrete README content. -/
theorem C5_witness :
    (setupArgs "doc").platforms = ["linux"]
    ∧ "Programming Language :: Python :: 2.7" ∈ (setupArgs "doc").classifiers
    ∧ "Programming Language :: Python :: 3" ∈ (setupArgs "doc").classifiers :=
  C5_platforms_and_python_versions "doc"

/-- C6: for any README content, the `setup()` call supplies a name, a
version, an author, a license, a classifier list and dependency version
constraints, each a non-empty value (for the two lists: non-empty lists
of non-empty strings). -/
theorem C6_required_fields_nonempty (readme : String) :
    (setupArgs readme).name ≠ ""
    ∧ (setupArgs readme).version ≠ ""
    ∧ (setupArgs readme).author ≠ ""
    ∧ (setupArgs readme).license ≠ ""
    ∧ (setupArgs readme).classifiers ≠ []
    ∧ (∀ c ∈ (setupArgs readme).classifiers, c ≠ "")
    ∧ (setupArgs readme).install_requires ≠ []
    ∧ (∀ d ∈ (setupArgs readme).install_requires, d ≠ "") := by
  refine ⟨?_, ?_, ?_, ?_, ?_, ?_, ?_, ?_⟩ <;> simp [setupArgs]

/-- C6, witness at a concrete README content. -/
theorem C6_witness :
    (setupArgs "doc").name ≠ ""
    ∧ (setupArgs "doc").version ≠ ""
    ∧ (setupArgs "doc").author ≠ ""
    ∧ (setupArgs "doc").license ≠ ""
    ∧ (setupArgs "doc").classifiers ≠ []
    ∧ (∀ c ∈ (setupArgs "doc").classifiers, c ≠ "")
    ∧ (setupArgs "doc").install_requires ≠ []
    ∧ (∀ d ∈ (setupArgs "doc").install_requires, d ≠ "") :=
  C6_required_fields_nonempty "doc"

/-- C7: the module raises before `setup()` is ever invoked exactly when
the read of `README.rst` fails, and `setup()` is called exactly when the
read succeeds. -/
theorem C7_setup_called_iff_read_succeeds (r : Option String) :
    (runSetupPy r).isSome ↔ r.isSome := by
  cases r <;> simp [runSetupPy]

/-- C7, witness at the concrete inputs `none` and `some "doc"`. -/
theorem C7_witness :
    ((runSetupPy none).isSome ↔ (none : Option String).isSome)
    ∧ ((runSetupPy (some "doc")).isSome ↔ (some "doc").isSome) :=
  ⟨C7_setup_called_iff_read_succeeds none,
   C7_setup_called_iff_read_succeeds (some "doc")⟩

/-- C8: whenever `setup()` is invoked (the read returned content `s`),
the `long_description` argument it receives is exactly `s`,
unmodified. -/
theorem C8_long_description_is_readme (s : String) :
    (runSetupPy (some s)).map SetupArgs.long_description = some s := rfl

/-- C8, witness at a concrete README content. -/
theorem C8_witness :
    (runSetupPy (some "doc")).map SetupArgs.long_description = some "doc" :=
  C8_long_description_is_readme "doc"

/-- C9: executing `src/setup.py` is deterministic in its one input: two
runs, in arbitrary (possibly different) environments, whose reads of
`README.rst` yield the same outcome, invoke `setup()` with identical
argument values. -/
theorem C9_deterministic_in_readme (env₁ env₂ : List (String × String))
    (r₁ r₂ : Option String) (h : r₁ = r₂) :
    runSetupPyInEnv env₁ r₁ = runSetupPyInEnv env₂ r₂ := by
  subst h; rfl

/-- C9, witness at concrete distinct environments and equal README
content. -/
theorem C9_witness :
    (some "readme text" : Option String) = some "readme text"
    ∧ runSetupPyInEnv [("HOME", "/root")] (some "readme text")
        = runSetupPyInEnv [("PATH", "/usr/bin"), ("LANG", "C")]
            (some "readme text") :=
  ⟨rfl, C9_deterministic_in_readme [("HOME", "/root")]
    [("PATH", "/usr/bin"), ("LANG", "C")]
    (some "readme text") (some "readme text") rfl⟩

end Proxtop
